import Mathlib

/-!
Verification of the request-execution core of `discord_bot_backup.py`
(daily_stock_analysis Discord bot).

The embedding models:
- the Python exception values that can cross the dispatcher boundary
  (`Exc`),
- every logging call site of the file as a tagged `LogEntry`,
- `AsyncTaskManager.run_task_with_timeout` / `run_sync_task` as pure
  functions over a `Task` (a unit of work with a wall-clock duration and
  an `Except` outcome),
- `CommandHandler.execute_with_error_handling` (the dispatcher) with its
  `except ValueError` / `except asyncio.TimeoutError` / `except Exception`
  chain, including an explicit `raised` channel for an exception that no
  handler would catch,
- the four slash commands (`stock_analyze`, `market_review`, `help`,
  `about`), with the backend collaborators (`run_full_analysis`,
  `run_market_review`) kept abstract as environments that state what call
  is made, how long it runs and what it returns.
-/

namespace DiscordBot

/-- Python logging levels used by the bot (`logger.info` / `logger.error`). -/
inductive LogLevel where
  | info
  | error
deriving DecidableEq, Repr

/-- One tag per logging call site in `discord_bot_backup.py`, so that
"how many success lines / error lines did this component emit" is a
structural question. -/
inductive LogKind where
  | requestOpen
  | requestSuccess
  | requestInputError
  | requestTimeout
  | requestFailure
  | taskStart
  | taskSuccess
  | taskTimeout
  | taskFailure
  | analysisDone
  | reviewDone
  | reviewFailed
  | helpRequested
  | aboutRequested
deriving DecidableEq, Repr

/-- A log line: which call site produced it, at which level, with which text. -/
structure LogEntry where
  kind : LogKind
  level : LogLevel
  msg : String
deriving DecidableEq, Repr

/-- Python exception values relevant at the dispatcher boundary.  Every
variant stands for a class deriving `builtins.Exception`: `ValueError`
(validation), `asyncio.TimeoutError` (deadline), and any other
`Exception` subclass identified by its type name (used by the
dispatcher's name-matching catch-all) and its `str(e)` message. -/
inductive Exc where
  | valueError (msg : String)
  | timeoutError
  | other (typeName : String) (msg : String)
deriving DecidableEq, Repr

/-- Does `except ValueError` catch this exception? -/
def excIsValueError : Exc → Bool
  | .valueError _ => true
  | _ => false

/-- Does `except asyncio.TimeoutError` catch this exception? -/
def excIsTimeoutError : Exc → Bool
  | .timeoutError => true
  | _ => false

/-- Does `except Exception` catch this exception?  Every modeled variant
stands for an `Exception`-derived class, so the catch-all matches all of
them. -/
def excIsException : Exc → Bool := fun _ => true

/-- `type(e).__name__` of the modeled exception. -/
def excTypeName : Exc → String
  | .valueError _ => "ValueError"
  | .timeoutError => "TimeoutError"
  | .other n _ => n

/-- `str(e)` of the modeled exception. -/
def excMessage : Exc → String
  | .valueError m => m
  | .timeoutError => ""
  | .other _ m => m

/-- `DEFAULT_TIMEOUT = 300` (seconds). -/
def DEFAULT_TIMEOUT : Nat := 300

/-- `STOCK_ANALYSIS_TIMEOUT = 600` (seconds). -/
def STOCK_ANALYSIS_TIMEOUT : Nat := 600

/-- `MARKET_REVIEW_TIMEOUT = 300` (seconds). -/
def MARKET_REVIEW_TIMEOUT : Nat := 300

/-- `AsyncTaskManager.__init__` sets `self.default_timeout = DEFAULT_TIMEOUT`. -/
def default_timeout : Nat := DEFAULT_TIMEOUT

/-- A unit of work handed to the task manager: how long it occupies the
wall clock and what it produces (a value or a raised exception). -/
structure Task (α : Type) where
  duration : Nat
  result : Except Exc α

/-- Observable outcome of one `run_task_with_timeout` call: the value
returned or exception raised, the log lines emitted, and the timeout
value actually passed to `asyncio.wait_for`. -/
structure RunOutput (α : Type) where
  result : Except Exc α
  logs : List LogEntry
  timeoutUsed : Nat

/-- `timeout = timeout or self.default_timeout`: Python's `or` takes the
fallback both when the argument is absent (`None`) and when it is falsy
(`0`). -/
def effectiveTimeout (timeout : Option Nat) (dflt : Nat) : Nat :=
  match timeout with
  | none => dflt
  | some t => if t = 0 then dflt else t

/-- Log line `"开始执行任务：{task_name}，超时时间：{timeout}秒"`. -/
def taskStartEntry (task_name : String) (t : Nat) : LogEntry :=
  ⟨.taskStart, .info, "开始执行任务：" ++ task_name ++ "，超时时间：" ++ toString t ++ "秒"⟩

/-- Log line `"任务 {task_name} 执行成功"`. -/
def taskSuccessEntry (task_name : String) : LogEntry :=
  ⟨.taskSuccess, .info, "任务 " ++ task_name ++ " 执行成功"⟩

/-- Log line `"任务 {task_name} 执行超时（{timeout}秒）"`. -/
def taskTimeoutEntry (task_name : String) (t : Nat) : LogEntry :=
  ⟨.taskTimeout, .error, "任务 " ++ task_name ++ " 执行超时（" ++ toString t ++ "秒）"⟩

/-- Log line `"任务 {task_name} 执行异常：{e}"`. -/
def taskFailureEntry (task_name : String) (e : Exc) : LogEntry :=
  ⟨.taskFailure, .error, "任务 " ++ task_name ++ " 执行异常：" ++ excMessage e⟩

/-- The exception the task manager raises after a timeout:
`raise Exception(f"任务执行超时，请稍后重试")` — a plain `Exception`, not an
`asyncio.TimeoutError`. -/
def taskTimeoutExc : Exc := .other "Exception" "任务执行超时，请稍后重试"

/-- `AsyncTaskManager.run_task_with_timeout`.  The work is raced against
`asyncio.wait_for` with the effective timeout: if it finishes within the
deadline its value is returned (or its own exception re-raised
unchanged), except that an `asyncio.TimeoutError` — whether raised by
`wait_for` when the deadline elapses or by the task itself — is caught
by the `except asyncio.TimeoutError` clause, logged, and replaced by the
plain `Exception` `taskTimeoutExc`. -/
def run_task_with_timeout {α : Type} (task_name : String) (task : Task α)
    (timeout : Option Nat) : RunOutput α :=
  let t := effectiveTimeout timeout default_timeout
  if task.duration ≤ t then
    match task.result with
    | .ok v => ⟨.ok v, [taskStartEntry task_name t, taskSuccessEntry task_name], t⟩
    | .error e =>
      if excIsTimeoutError e then
        ⟨.error taskTimeoutExc, [taskStartEntry task_name t, taskTimeoutEntry task_name t], t⟩
      else
        ⟨.error e, [taskStartEntry task_name t, taskFailureEntry task_name e], t⟩
  else
    ⟨.error taskTimeoutExc, [taskStartEntry task_name t, taskTimeoutEntry task_name t], t⟩

/-- `AsyncTaskManager.run_sync_task`: wraps the synchronous function with
`asyncio.to_thread` and delegates to `run_task_with_timeout`; the
observable behavior over the modeled task is the delegation itself. -/
def run_sync_task {α : Type} (task_name : String) (task : Task α)
    (timeout : Option Nat) : RunOutput α :=
  run_task_with_timeout task_name task timeout

/-- What one run of a command action did: its outcome, the follow-up
messages it sent before terminating, and the log lines it emitted. -/
structure ActionRun (α : Type) where
  result : Except Exc α
  messages : List String
  logs : List LogEntry

/-- The per-interaction data the dispatcher logs: `user_info` and
`guild_info` strings computed from the Discord interaction. -/
structure InteractionCtx where
  userInfo : String
  guildInfo : String
deriving DecidableEq, Repr

/-- Observable outcome of one `execute_with_error_handling` call:
the value returned to the caller, an exception escaping past the
dispatcher (if any handler chain missed it), all log lines, and all
user-facing messages sent. -/
structure DispatchOutput (α : Type) where
  returned : Option α
  raised : Option Exc
  logs : List LogEntry
  sent : List String

/-- Is `pat` a leading segment of `s`? (helper for the substring test). -/
def charsLeadWith : List Char → List Char → Bool
  | [], _ => true
  | _ :: _, [] => false
  | p :: ps, c :: cs => p = c && charsLeadWith ps cs

/-- Does the segment `pat` occur anywhere inside `s`? -/
def charsContain (pat : List Char) : List Char → Bool
  | [] => pat.isEmpty
  | c :: cs => charsLeadWith pat (c :: cs) || charsContain pat cs

/-- Python's `pat in s` substring test. -/
def strContains (s pat : String) : Bool := charsContain pat.toList s.toList

/-- User message `"❌ 输入错误：{e}"`. -/
def inputErrorMessage (e : Exc) : String := "❌ 输入错误：" ++ excMessage e

/-- User message for the dispatcher's `asyncio.TimeoutError` branch. -/
def timeoutUserMessage : String := "❌ 命令执行超时，请稍后重试。"

/-- User message for type names containing `APIError` or `NetworkError`. -/
def apiErrorMessage : String := "❌ 网络或API错误，请稍后重试。"

/-- User message for type names containing `PermissionError`. -/
def permissionDeniedMessage : String := "❌ 权限不足，无法执行该命令。"

/-- The catch-all user message. -/
def genericErrorMessage : String := "❌ 执行命令过程中发生错误，请稍后重试或联系管理员。"

/-- The `except Exception` branch picks the user message by matching the
exception's type name. -/
def unclassifiedUserMessage (typeName : String) : String :=
  if strContains typeName "APIError" || strContains typeName "NetworkError" then
    apiErrorMessage
  else if strContains typeName "PermissionError" then
    permissionDeniedMessage
  else
    genericErrorMessage

/-- Log line `"请求ID: {request_id} | 用户: {user_info} | 来源: {guild_info} | 请求命令: {command_name}"`. -/
def requestOpenEntry (request_id : String) (ictx : InteractionCtx) (command_name : String) : LogEntry :=
  ⟨.requestOpen, .info,
   "请求ID: " ++ request_id ++ " | 用户: " ++ ictx.userInfo ++ " | 来源: " ++ ictx.guildInfo ++
     " | 请求命令: " ++ command_name⟩

/-- Log line `"请求ID: {request_id} | 命令 {command_name} 执行成功"`. -/
def requestSuccessEntry (request_id command_name : String) : LogEntry :=
  ⟨.requestSuccess, .info, "请求ID: " ++ request_id ++ " | 命令 " ++ command_name ++ " 执行成功"⟩

/-- Log line `"请求ID: {request_id} | 命令 {command_name} 输入错误：{e}"`. -/
def requestInputErrorEntry (request_id command_name : String) (e : Exc) : LogEntry :=
  ⟨.requestInputError, .error,
   "请求ID: " ++ request_id ++ " | 命令 " ++ command_name ++ " 输入错误：" ++ excMessage e⟩

/-- Log line `"请求ID: {request_id} | 命令 {command_name} 执行超时"`. -/
def requestTimeoutEntry (request_id command_name : String) : LogEntry :=
  ⟨.requestTimeout, .error, "请求ID: " ++ request_id ++ " | 命令 " ++ command_name ++ " 执行超时"⟩

/-- Log line `"请求ID: {request_id} | 命令 {command_name} 执行异常"` (with `exc_info`). -/
def requestFailureEntry (request_id command_name : String) : LogEntry :=
  ⟨.requestFailure, .error, "请求ID: " ++ request_id ++ " | 命令 " ++ command_name ++ " 执行异常"⟩

/-- `CommandHandler.execute_with_error_handling`: logs the request line,
invokes the action, and on failure walks the handler chain
`except ValueError` → `except asyncio.TimeoutError` → `except Exception`
in source order.  A failure no clause matches would escape (`raised`);
each handled branch sends exactly one user message and logs one error
line, then the function returns `None`. -/
def execute_with_error_handling {α : Type} (request_id : String) (ictx : InteractionCtx)
    (command_name : String) (act : ActionRun α) : DispatchOutput α :=
  let openLog := requestOpenEntry request_id ictx command_name
  match act.result with
  | .ok v =>
    ⟨some v, none, openLog :: act.logs ++ [requestSuccessEntry request_id command_name],
     act.messages⟩
  | .error e =>
    if excIsValueError e then
      ⟨none, none, openLog :: act.logs ++ [requestInputErrorEntry request_id command_name e],
       act.messages ++ [inputErrorMessage e]⟩
    else if excIsTimeoutError e then
      ⟨none, none, openLog :: act.logs ++ [requestTimeoutEntry request_id command_name],
       act.messages ++ [timeoutUserMessage]⟩
    else if excIsException e then
      ⟨none, none, openLog :: act.logs ++ [requestFailureEntry request_id command_name],
       act.messages ++ [unclassifiedUserMessage (excTypeName e)]⟩
    else
      ⟨none, some e, openLog :: act.logs, act.messages⟩

/-- The `argparse.Namespace` built by `_run_stock_analysis`. -/
structure AnalysisArgs where
  debug : Bool
  dry_run : Bool
  no_notify : Bool
  single_notify : Bool
  workers : Option Nat
  schedule : Bool
  market_review : Bool
  no_market_review : Bool
  webui : Bool
  webui_only : Bool
  stocks : Option (List String)
deriving DecidableEq, Repr

/-- One invocation of the backend `run_full_analysis`: the namespace of
runtime options and the `stock_codes` list it receives. -/
structure BackendCall where
  args : AnalysisArgs
  stock_codes : List String
deriving DecidableEq, Repr

/-- `_run_stock_analysis`: builds the namespace (`market_review=False`,
`no_market_review=not full_report`, `debug=True`, everything else
off/absent) and calls `run_full_analysis` with the single-element code
list. -/
def _run_stock_analysis (stock_code : String) (full_report : Bool) : BackendCall :=
  { args := { debug := true, dry_run := false, no_notify := false, single_notify := false,
              workers := none, schedule := false, market_review := false,
              no_market_review := !full_report, webui := false, webui_only := false,
              stocks := none },
    stock_codes := [stock_code] }

/-- `re.match(r'^\d{6}$', s)` as a Boolean: six digits, where Python's `$`
also accepts a single trailing newline.  (`\d` is modeled over the ASCII
digits; the A-share codes in scope are ASCII, and every claim uses this
same matcher on both its sides.) -/
def matchSixDigits (s : String) : Bool :=
  let cs := s.toList
  (cs.length = 6 && cs.all Char.isDigit) ||
    (cs.length = 7 && (cs.take 6).all Char.isDigit && cs.getLast? = some '\n')

/-- The whitespace set stripped by Python's `str.strip()` (ASCII part). -/
def pyIsSpace (c : Char) : Bool :=
  c = ' ' || c = '\t' || c = '\n' || c = '\r' || c = '\x0b' || c = '\x0c'

/-- Python's `str.strip()`: drop leading and trailing whitespace. -/
def pyStrip (s : String) : String :=
  ⟨((s.toList.dropWhile pyIsSpace).reverse.dropWhile pyIsSpace).reverse⟩

/-- The `ValueError` raised by `_execute_stock_analysis` on validation
failure. -/
def invalidCodeExc (stock_code : String) : Exc :=
  .valueError ("无效的股票代码格式：" ++ stock_code ++ "，请输入6位数字股票代码")

/-- The backend environment for stock analysis: for a given
`run_full_analysis` invocation, how long the blocking call runs and what
it returns or raises. -/
structure StockBackendEnv (α : Type) where
  duration : BackendCall → Nat
  result : BackendCall → Except Exc α

/-- Observable outcome of `_execute_stock_analysis`: outcome, task-manager
logs, the `run_full_analysis` invocations started, and the timeout handed
to `wait_for` (none when no task was ever submitted). -/
structure ExecOutput (α : Type) where
  result : Except Exc α
  logs : List LogEntry
  calls : List BackendCall
  timeoutUsed : Option Nat

/-- `_execute_stock_analysis`: validates the code against the six-digit
pattern, raising `ValueError` before any task is submitted on mismatch;
otherwise submits `_run_stock_analysis` via `run_sync_task` with
`timeout=STOCK_ANALYSIS_TIMEOUT`. -/
def _execute_stock_analysis {α : Type} (env : StockBackendEnv α) (stock_code : String)
    (full_report : Bool) : ExecOutput α :=
  if matchSixDigits stock_code then
    let call := _run_stock_analysis stock_code full_report
    let out := run_sync_task ("stock_analysis_" ++ stock_code)
      (⟨env.duration call, env.result call⟩ : Task α) (some STOCK_ANALYSIS_TIMEOUT)
    ⟨out.result, out.logs, [call], some out.timeoutUsed⟩
  else
    ⟨.error (invalidCodeExc stock_code), [], [], none⟩

/-- One invocation of the backend `run_market_review`: which collaborators
were passed (`notifier=bot.notification_service`, `analyzer=None`,
`search_service=None`). -/
structure ReviewCall where
  usesBotNotifier : Bool
  analyzerProvided : Bool
  searchServiceProvided : Bool
deriving DecidableEq, Repr

/-- The `run_market_review` invocation made by `_execute_market_review`. -/
def marketReviewCall : ReviewCall := ⟨true, false, false⟩

/-- The backend environment for the market review: how long the blocking
`run_market_review` call runs, what it returns or raises, and Python
truthiness of its result values. -/
structure ReviewEnv (α : Type) where
  duration : Nat
  result : Except Exc α
  truthy : α → Bool

/-- `_execute_market_review`: submits `run_market_review` via
`run_sync_task` with `timeout=MARKET_REVIEW_TIMEOUT`. -/
def _execute_market_review {α : Type} (env : ReviewEnv α) : RunOutput α :=
  run_sync_task "market_review" (⟨env.duration, env.result⟩ : Task α)
    (some MARKET_REVIEW_TIMEOUT)

/-- Observable outcome of one slash-command invocation: what the
dispatcher returned, whether anything escaped it, all logs, all messages
sent to the user, and the backend invocations started. -/
structure CommandOutput (α : Type) where
  dispatcherReturned : Option α
  raised : Option Exc
  logs : List LogEntry
  sent : List String
  calls : List BackendCall
  reviewCalls : List ReviewCall
  timeoutUsed : Option Nat

/-- Message `"🔄 正在分析股票：{stock_code}..."`. -/
def analysisStartMessage (stock_code : String) : String :=
  "🔄 正在分析股票：" ++ stock_code ++ "..."

/-- Message `"✅ 股票分析完成！{stock_code} 的分析报告已生成。"`. -/
def analysisDoneMessage (stock_code : String) : String :=
  "✅ 股票分析完成！" ++ stock_code ++ " 的分析报告已生成。"

/-- Log line `"股票分析完成：{stock_code}"`. -/
def analysisDoneEntry (stock_code : String) : LogEntry :=
  ⟨.analysisDone, .info, "股票分析完成：" ++ stock_code⟩

/-- The `stock_analyze` slash command: defers, strips the raw code, then
runs its action (start message → `_execute_stock_analysis` → success
message and log) through `execute_with_error_handling` under the command
name `"stock_analyze"`. -/
def stock_analyze {α : Type} (env : StockBackendEnv α) (request_id : String)
    (ictx : InteractionCtx) (stock_code : String) (full_report : Bool := false) :
    CommandOutput α :=
  let code := pyStrip stock_code
  let ex := _execute_stock_analysis env code full_report
  let act : ActionRun α :=
    match ex.result with
    | .ok v =>
      ⟨.ok v, [analysisStartMessage code, analysisDoneMessage code],
       ex.logs ++ [analysisDoneEntry code]⟩
    | .error e => ⟨.error e, [analysisStartMessage code], ex.logs⟩
  let d := execute_with_error_handling request_id ictx "stock_analyze" act
  ⟨d.returned, d.raised, d.logs, d.sent, ex.calls, [], ex.timeoutUsed⟩

/-- Message `"🔄 正在生成大盘复盘报告..."`. -/
def reviewStartMessage : String := "🔄 正在生成大盘复盘报告..."

/-- Message `"✅ 大盘复盘完成！报告已生成。"`. -/
def reviewDoneMessage : String := "✅ 大盘复盘完成！报告已生成。"

/-- Message `"❌ 大盘复盘失败，请确保相关服务已配置。"`. -/
def reviewFailedMessage : String := "❌ 大盘复盘失败，请确保相关服务已配置。"

/-- The `market_review` slash command: its action sends the start message,
runs `_execute_market_review`, then branches on the truthiness of the
result — success message and info log when truthy, explicit failure
message and error log when falsy — and returns the result either way;
the whole action runs through `execute_with_error_handling`. -/
def market_review_command {α : Type} (env : ReviewEnv α) (request_id : String)
    (ictx : InteractionCtx) : CommandOutput α :=
  let out := _execute_market_review env
  let act : ActionRun α :=
    match out.result with
    | .ok v =>
      if env.truthy v then
        ⟨.ok v, [reviewStartMessage, reviewDoneMessage],
         out.logs ++ [⟨.reviewDone, .info, "大盘复盘完成"⟩]⟩
      else
        ⟨.ok v, [reviewStartMessage, reviewFailedMessage],
         out.logs ++ [⟨.reviewFailed, .error, "大盘复盘失败"⟩]⟩
    | .error e => ⟨.error e, [reviewStartMessage], out.logs⟩
  let d := execute_with_error_handling request_id ictx "market_review" act
  ⟨d.returned, d.raised, d.logs, d.sent, [], [marketReviewCall], some out.timeoutUsed⟩

/-- The static help text sent by `/help`. -/
def helpMessage : String :=
  "\n📊 **A股智能分析机器人帮助**\n\n### 支持的命令：\n\n1. `/stock_analyze <stock_code> [full_report]`\n   - 分析指定股票代码\n   - `stock_code`: 股票代码，如 600519\n   - `full_report`: 可选，是否生成完整报告（包含大盘）\n\n2. `/market_review`\n   - 获取大盘复盘报告\n\n3. `/help`\n   - 查看此帮助信息\n\n### 示例：\n- `/stock_analyze 600519` - 分析贵州茅台\n- `/stock_analyze 300750 true` - 生成宁德时代的完整报告\n- `/market_review` - 获取大盘复盘\n\n### 配置说明：\n机器人使用项目的.env配置文件，需要确保配置正确的API密钥和通知渠道。\n\n📈 数据来源：Tushare、Efinance\n🤖 AI分析：Gemini\n"

/-- The static about text sent by `/about`. -/
def aboutMessage : String :=
  "\n🤖 **关于A股智能分析机器人**\n\n### 项目信息：\n- **名称**：A股自选股智能分析系统\n- **版本**：v1.0.0\n- **作者**：daily_stock_analysis团队\n- **GitHub**：https://github.com/ZhuLinsen/daily_stock_analysis\n\n### 功能特点：\n- ✅ 多数据源支持（Tushare、Efinance）\n- ✅ AI驱动的智能分析（Gemini）\n- ✅ 实时新闻整合\n- ✅ 多渠道通知推送\n- ✅ Discord机器人支持\n- ✅ 大盘复盘分析\n- ✅ 技术指标计算\n\n### 联系方式：\n如有问题或建议，欢迎在GitHub上提交Issue或PR。\n"

/-- The `/help` slash command: replies with the static help text and logs
one info line; it does not go through `execute_with_error_handling`,
calls no backend and submits no task. -/
def help_command (ictx : InteractionCtx) : CommandOutput Unit :=
  ⟨none, none, [⟨.helpRequested, .info, "用户 " ++ ictx.userInfo ++ " 请求帮助信息"⟩],
   [helpMessage], [], [], none⟩

/-- The `/about` slash command: replies with the static about text and
logs one info line; it does not go through `execute_with_error_handling`,
calls no backend and submits no task. -/
def about_command (ictx : InteractionCtx) : CommandOutput Unit :=
  ⟨none, none, [⟨.aboutRequested, .info, "用户 " ++ ictx.userInfo ++ " 请求关于信息"⟩],
   [aboutMessage], [], [], none⟩

/-- Count the log lines of a given call-site kind. -/
def countKind (k : LogKind) : List LogEntry → Nat
  | [] => 0
  | e :: rest => (if e.kind = k then 1 else 0) + countKind k rest

/-- Count the sent messages equal to a given text. -/
def countMsg (m : String) : List String → Nat
  | [] => 0
  | x :: rest => (if x = m then 1 else 0) + countMsg m rest

/-- A concrete interaction used to instantiate the general theorems. -/
def ictx0 : InteractionCtx := ⟨"alice (ID: 1)", "私人消息"⟩

/-- A stock backend that always succeeds instantly with a unit report. -/
def instantStockEnv : StockBackendEnv Unit := ⟨fun _ => 0, fun _ => Except.ok ()⟩

/-- A stock backend whose blocking run outlasts the 600-second analysis
deadline. -/
def slowStockEnv : StockBackendEnv Unit := ⟨fun _ => STOCK_ANALYSIS_TIMEOUT + 1, fun _ => Except.ok ()⟩

/-- A market-review backend returning a falsy result instantly (models
`run_market_review` returning `None`). -/
def falsyReviewEnv : ReviewEnv (Option Nat) := ⟨0, Except.ok none, Option.isSome⟩

/-- A market-review backend returning a truthy result instantly. -/
def truthyReviewEnv : ReviewEnv (Option Nat) := ⟨0, Except.ok (some 1), Option.isSome⟩

/-- A unit-valued market-review backend (always truthy) used to
instantiate theorems that share one result type across both backends. -/
def unitReviewEnv : ReviewEnv Unit := ⟨0, Except.ok (), fun _ => true⟩

/-- A task finishing instantly with a unit value. -/
def task0 : Task Unit := ⟨0, Except.ok ()⟩

/- ------------------------------------------------------------------ -/
/- Helper lemmas about the task manager and the dispatcher.           -/
/- ------------------------------------------------------------------ -/

theorem countKind_append (k : LogKind) (l₁ l₂ : List LogEntry) :
    countKind k (l₁ ++ l₂) = countKind k l₁ + countKind k l₂ := by
  induction l₁ with
  | nil => simp [countKind]
  | cons e rest ih => simp [countKind, ih, Nat.add_assoc]

theorem run_timeoutUsed {α : Type} (n : String) (task : Task α) (t : Option Nat) :
    (run_task_with_timeout n task t).timeoutUsed = effectiveTimeout t default_timeout := by
  unfold run_task_with_timeout
  rcases h : task.result with v | e <;> simp only [h] <;> split <;> try rfl
  split <;> rfl

theorem run_logs_shape {α : Type} (n : String) (task : Task α) (t : Option Nat) :
    (run_task_with_timeout n task t).logs =
        [taskStartEntry n (effectiveTimeout t default_timeout), taskSuccessEntry n] ∨
    (run_task_with_timeout n task t).logs =
        [taskStartEntry n (effectiveTimeout t default_timeout),
         taskTimeoutEntry n (effectiveTimeout t default_timeout)] ∨
    ∃ e, (run_task_with_timeout n task t).logs =
        [taskStartEntry n (effectiveTimeout t default_timeout), taskFailureEntry n e] := by
  unfold run_task_with_timeout
  rcases h : task.result with e | v
  · simp only [h]
    split
    · split
      · right; left; rfl
      · right; right; exact ⟨e, rfl⟩
    · right; left; rfl
  · simp only [h]
    split
    · left; rfl
    · right; left; rfl

theorem run_countKind_requestOpen {α : Type} (n : String) (task : Task α) (t : Option Nat) :
    countKind LogKind.requestOpen (run_task_with_timeout n task t).logs = 0 := by
  rcases run_logs_shape n task t with h | h | ⟨e, h⟩ <;>
    simp [h, countKind, taskStartEntry, taskSuccessEntry, taskTimeoutEntry, taskFailureEntry]

theorem dispatch_countKind_requestOpen {α : Type} (request_id : String) (ictx : InteractionCtx)
    (command_name : String) (act : ActionRun α) :
    countKind LogKind.requestOpen
        (execute_with_error_handling request_id ictx command_name act).logs =
      1 + countKind LogKind.requestOpen act.logs := by
  unfold execute_with_error_handling
  rcases h : act.result with e | v
  · simp only [h]
    cases e <;>
      simp [excIsValueError, excIsTimeoutError, excIsException, countKind, countKind_append,
            requestOpenEntry, requestInputErrorEntry, requestTimeoutEntry, requestFailureEntry]
  · simp [h, countKind, countKind_append, requestOpenEntry, requestSuccessEntry]

theorem exec_countKind_requestOpen {α : Type} (env : StockBackendEnv α) (code : String)
    (full_report : Bool) :
    countKind LogKind.requestOpen (_execute_stock_analysis env code full_report).logs = 0 := by
  unfold _execute_stock_analysis
  split
  · simp only [run_sync_task]
    exact run_countKind_requestOpen _ _ _
  · rfl

/- ------------------------------------------------------------------ -/
/- Claims.                                                            -/
/- ------------------------------------------------------------------ -/

/-- C3: the dispatcher never lets an exception escape — for every action
and every exception the action raises, `execute_with_error_handling`
re-raises nothing (`raised = none`) and returns the action's result on
success, `None` after a handled, reported failure. -/
theorem C3_dispatcher_never_reraises {α : Type} (request_id : String)
    (ictx : InteractionCtx) (command_name : String) (act : ActionRun α) :
    (execute_with_error_handling request_id ictx command_name act).raised = none ∧
    (execute_with_error_handling request_id ictx command_name act).returned =
      (match act.result with
       | Except.ok v => some v
       | Except.error _ => none) := by
  unfold execute_with_error_handling
  rcases h : act.result with e | v
  · simp only [h]
    cases e <;> simp [excIsValueError, excIsTimeoutError, excIsException]
  · simp [h]

/-- C9: a timeout argument of `0` is falsy, so `timeout or
self.default_timeout` replaces it by the 300-second default: `timeout=0`
behaves exactly like omitting the timeout, and no call through
`run_task_with_timeout` (hence none through `run_sync_task`) can run
under a zero-second deadline. -/
theorem C9_zero_timeout_uses_default {α : Type} (task_name : String) (task : Task α) :
    (run_task_with_timeout task_name task (some 0)).timeoutUsed = 300 ∧
    run_sync_task task_name task (some 0) = run_sync_task task_name task none ∧
    ∀ t, 0 < (run_task_with_timeout task_name task t).timeoutUsed := by
  refine ⟨?_, rfl, ?_⟩
  · rw [run_timeoutUsed]; rfl
  · intro t
    rw [run_timeoutUsed]
    rcases t with _ | v
    · simp [effectiveTimeout, default_timeout, DEFAULT_TIMEOUT]
    · simp only [effectiveTimeout]
      split
      · simp [default_timeout, DEFAULT_TIMEOUT]
      · omega

/-- C8: timeout configuration — an omitted timeout falls back to the
300-second system default, the stock-analysis task is submitted to
`asyncio.wait_for` with a 600-second timeout, and the market-review task
with a 300-second timeout. -/
theorem C8_timeout_configuration {α : Type} (task_name : String) (task : Task α)
    (env : StockBackendEnv α) (renv : ReviewEnv α) (request_id : String)
    (ictx : InteractionCtx) (stock_code : String) (full_report : Bool)
    (h : matchSixDigits (pyStrip stock_code) = true) :
    DEFAULT_TIMEOUT = 300 ∧ STOCK_ANALYSIS_TIMEOUT = 600 ∧ MARKET_REVIEW_TIMEOUT = 300 ∧
    (run_task_with_timeout task_name task none).timeoutUsed = DEFAULT_TIMEOUT ∧
    (stock_analyze env request_id ictx stock_code full_report).timeoutUsed = some 600 ∧
    (market_review_command renv request_id ictx).timeoutUsed = some 300 := by
  refine ⟨rfl, rfl, rfl, ?_, ?_, ?_⟩
  · rw [run_timeoutUsed]; rfl
  · simp only [stock_analyze, _execute_stock_analysis, h, if_true]
    simp [run_sync_task, run_timeoutUsed, effectiveTimeout, default_timeout,
          STOCK_ANALYSIS_TIMEOUT, DEFAULT_TIMEOUT]
  · simp only [market_review_command, _execute_market_review]
    simp [run_sync_task, run_timeoutUsed, effectiveTimeout, default_timeout,
          MARKET_REVIEW_TIMEOUT, DEFAULT_TIMEOUT]

/-- C8 witness: the configuration facts instantiated at the identifier
600519 and instant backends. -/
theorem C8_timeout_configuration_witness :
    matchSixDigits (pyStrip "600519") = true ∧
    (DEFAULT_TIMEOUT = 300 ∧ STOCK_ANALYSIS_TIMEOUT = 600 ∧ MARKET_REVIEW_TIMEOUT = 300 ∧
     (run_task_with_timeout "demo" task0 none).timeoutUsed = DEFAULT_TIMEOUT ∧
     (stock_analyze instantStockEnv "req00001" ictx0 "600519" false).timeoutUsed = some 600 ∧
     (market_review_command unitReviewEnv "req00001" ictx0).timeoutUsed = some 300) :=
  ⟨by decide,
   C8_timeout_configuration "demo" task0 instantStockEnv unitReviewEnv "req00001" ictx0
     "600519" false (by decide)⟩

/-- C4: success path — a task finishing within its effective deadline has
its value returned unchanged by `run_task_with_timeout`, with exactly one
task-success log line, and the dispatcher passes that same value through
unchanged, with exactly one request-success log line. -/
theorem C4_success_returns_unchanged {α : Type} (task_name : String) (task : Task α)
    (t : Option Nat) (v : α) (request_id : String) (ictx : InteractionCtx)
    (command_name : String) (ms : List String)
    (hd : task.duration ≤ effectiveTimeout t default_timeout)
    (hr : task.result = Except.ok v) :
    (run_task_with_timeout task_name task t).result = Except.ok v ∧
    countKind LogKind.taskSuccess (run_task_with_timeout task_name task t).logs = 1 ∧
    (execute_with_error_handling request_id ictx command_name
        ⟨(run_task_with_timeout task_name task t).result, ms,
         (run_task_with_timeout task_name task t).logs⟩).returned = some v ∧
    countKind LogKind.requestSuccess
      (execute_with_error_handling request_id ictx command_name
        ⟨(run_task_with_timeout task_name task t).result, ms,
         (run_task_with_timeout task_name task t).logs⟩).logs = 1 := by
  have hrun : run_task_with_timeout task_name task t =
      ⟨Except.ok v,
       [taskStartEntry task_name (effectiveTimeout t default_timeout),
        taskSuccessEntry task_name],
       effectiveTimeout t default_timeout⟩ := by
    unfold run_task_with_timeout
    simp [hr, hd]
  rw [hrun]
  refine ⟨rfl, by simp [countKind, taskStartEntry, taskSuccessEntry], rfl, ?_⟩
  simp [execute_with_error_handling, countKind, countKind_append, requestOpenEntry,
        requestSuccessEntry, taskStartEntry, taskSuccessEntry]

/-- C4 witness: an instant unit task through the dispatcher. -/
theorem C4_success_returns_unchanged_witness :
    task0.duration ≤ effectiveTimeout none default_timeout ∧
    task0.result = Except.ok () ∧
    ((run_task_with_timeout "demo_task" task0 none).result = Except.ok () ∧
     countKind LogKind.taskSuccess (run_task_with_timeout "demo_task" task0 none).logs = 1 ∧
     (execute_with_error_handling "req00002" ictx0 "demo"
         ⟨(run_task_with_timeout "demo_task" task0 none).result, [],
          (run_task_with_timeout "demo_task" task0 none).logs⟩).returned = some () ∧
     countKind LogKind.requestSuccess
       (execute_with_error_handling "req00002" ictx0 "demo"
         ⟨(run_task_with_timeout "demo_task" task0 none).result, [],
          (run_task_with_timeout "demo_task" task0 none).logs⟩).logs = 1) :=
  ⟨by decide, rfl,
   C4_success_returns_unchanged "demo_task" task0 none () "req00002" ictx0 "demo" []
     (by decide) rfl⟩

/-- C2: every stock identifier whose stripped form fails the six-digit
pattern makes the analyze path raise `ValueError` before the executor is
entered — no backend call, no task submitted, no timeout in play — and
the dispatcher classifies it as an input error, sending the user message
prefixed `输入错误` and returning `None` without re-raising. -/
theorem C2_pattern_mismatch_rejected_before_backend {α : Type} (env : StockBackendEnv α)
    (request_id : String) (ictx : InteractionCtx) (stock_code : String) (full_report : Bool)
    (h : matchSixDigits (pyStrip stock_code) = false) :
    (stock_analyze env request_id ictx stock_code full_report).calls = [] ∧
    (stock_analyze env request_id ictx stock_code full_report).timeoutUsed = none ∧
    countKind LogKind.taskStart
      (stock_analyze env request_id ictx stock_code full_report).logs = 0 ∧
    (stock_analyze env request_id ictx stock_code full_report).sent =
      [analysisStartMessage (pyStrip stock_code),
       inputErrorMessage (invalidCodeExc (pyStrip stock_code))] ∧
    (stock_analyze env request_id ictx stock_code full_report).raised = none ∧
    (stock_analyze env request_id ictx stock_code full_report).dispatcherReturned = none := by
  simp [stock_analyze, _execute_stock_analysis, h, execute_with_error_handling,
        excIsValueError, invalidCodeExc, countKind, requestOpenEntry, requestInputErrorEntry,
        inputErrorMessage, excMessage, analysisStartMessage]

/-- C2 witness: the five-digit identifier 60051 is rejected before any
backend work. -/
theorem C2_pattern_mismatch_rejected_before_backend_witness :
    matchSixDigits (pyStrip "60051") = false ∧
    ((stock_analyze instantStockEnv "req00003" ictx0 "60051" false).calls = [] ∧
     (stock_analyze instantStockEnv "req00003" ictx0 "60051" false).timeoutUsed = none ∧
     countKind LogKind.taskStart
       (stock_analyze instantStockEnv "req00003" ictx0 "60051" false).logs = 0 ∧
     (stock_analyze instantStockEnv "req00003" ictx0 "60051" false).sent =
       [analysisStartMessage (pyStrip "60051"),
        inputErrorMessage (invalidCodeExc (pyStrip "60051"))] ∧
     (stock_analyze instantStockEnv "req00003" ictx0 "60051" false).raised = none ∧
     (stock_analyze instantStockEnv "req00003" ictx0 "60051" false).dispatcherReturned = none) :=
  ⟨by decide,
   C2_pattern_mismatch_rejected_before_backend instantStockEnv "req00003" ictx0 "60051" false
     (by decide)⟩

/-- C5: when the market-review backend finishes within its deadline but
returns a falsy result, the command sends the explicit failure message
(never the generic unclassified one), logs an error line, and the
dispatcher treats the invocation as a normally handled outcome: nothing
is raised and the falsy result is returned. -/
theorem C5_falsy_review_sends_explicit_failure {α : Type} (env : ReviewEnv α) (v : α)
    (request_id : String) (ictx : InteractionCtx)
    (hd : env.duration ≤ MARKET_REVIEW_TIMEOUT)
    (hr : env.result = Except.ok v) (hf : env.truthy v = false) :
    (market_review_command env request_id ictx).sent =
      [reviewStartMessage, reviewFailedMessage] ∧
    LogEntry.mk LogKind.reviewFailed LogLevel.error "大盘复盘失败" ∈
      (market_review_command env request_id ictx).logs ∧
    (market_review_command env request_id ictx).raised = none ∧
    (market_review_command env request_id ictx).dispatcherReturned = some v ∧
    countMsg genericErrorMessage (market_review_command env request_id ictx).sent = 0 := by
  have hd' : env.duration ≤ effectiveTimeout (some MARKET_REVIEW_TIMEOUT) default_timeout := by
    simpa [effectiveTimeout, MARKET_REVIEW_TIMEOUT] using hd
  have hrun : _execute_market_review env =
      ⟨Except.ok v,
       [taskStartEntry "market_review"
          (effectiveTimeout (some MARKET_REVIEW_TIMEOUT) default_timeout),
        taskSuccessEntry "market_review"],
       effectiveTimeout (some MARKET_REVIEW_TIMEOUT) default_timeout⟩ := by
    unfold _execute_market_review run_sync_task run_task_with_timeout
    simp [hr, hd']
  refine ⟨?_, ?_, ?_, ?_, ?_⟩ <;>
    simp [market_review_command, hrun, hf, execute_with_error_handling, countMsg,
          reviewStartMessage, reviewFailedMessage, genericErrorMessage]

/-- C5 witness: a market review returning `None` within the deadline. -/
theorem C5_falsy_review_sends_explicit_failure_witness :
    falsyReviewEnv.duration ≤ MARKET_REVIEW_TIMEOUT ∧
    falsyReviewEnv.result = Except.ok none ∧
    falsyReviewEnv.truthy none = false ∧
    ((market_review_command falsyReviewEnv "req00004" ictx0).sent =
       [reviewStartMessage, reviewFailedMessage] ∧
     LogEntry.mk LogKind.reviewFailed LogLevel.error "大盘复盘失败" ∈
       (market_review_command falsyReviewEnv "req00004" ictx0).logs ∧
     (market_review_command falsyReviewEnv "req00004" ictx0).raised = none ∧
     (market_review_command falsyReviewEnv "req00004" ictx0).dispatcherReturned = some none ∧
     countMsg genericErrorMessage (market_review_command falsyReviewEnv "req00004" ictx0).sent = 0) :=
  ⟨by decide, rfl, rfl,
   C5_falsy_review_sends_explicit_failure falsyReviewEnv none "req00004" ictx0
     (by decide) rfl rfl⟩

/-- C7: analyzing 600519 without full report — `run_full_analysis` is
invoked exactly once, with the single-element list `["600519"]`, with
`market_review = False` and `no_market_review = True`; on a timely
success the action sends the start message and the analysis-complete
message naming 600519, and the backend's report is what the dispatcher
returns. -/
theorem C7_analyze_600519_invocation {α : Type} (env : StockBackendEnv α) (v : α)
    (request_id : String) (ictx : InteractionCtx)
    (hd : env.duration (_run_stock_analysis "600519" false) ≤ STOCK_ANALYSIS_TIMEOUT)
    (hr : env.result (_run_stock_analysis "600519" false) = Except.ok v) :
    (stock_analyze env request_id ictx "600519" false).calls =
      [_run_stock_analysis "600519" false] ∧
    (_run_stock_analysis "600519" false).stock_codes = ["600519"] ∧
    (_run_stock_analysis "600519" false).args.market_review = false ∧
    (_run_stock_analysis "600519" false).args.no_market_review = true ∧
    (stock_analyze env request_id ictx "600519" false).sent =
      [analysisStartMessage "600519", analysisDoneMessage "600519"] ∧
    (stock_analyze env request_id ictx "600519" false).dispatcherReturned = some v := by
  have hstrip : pyStrip "600519" = "600519" := by decide
  have hmatch : matchSixDigits "600519" = true := by decide
  have hd' : env.duration (_run_stock_analysis "600519" false) ≤
      effectiveTimeout (some STOCK_ANALYSIS_TIMEOUT) default_timeout := by
    simpa [effectiveTimeout, STOCK_ANALYSIS_TIMEOUT] using hd
  have hexec : _execute_stock_analysis env "600519" false =
      ⟨Except.ok v,
       [taskStartEntry "stock_analysis_600519"
          (effectiveTimeout (some STOCK_ANALYSIS_TIMEOUT) default_timeout),
        taskSuccessEntry "stock_analysis_600519"],
       [_run_stock_analysis "600519" false],
       some (effectiveTimeout (some STOCK_ANALYSIS_TIMEOUT) default_timeout)⟩ := by
    unfold _execute_stock_analysis run_sync_task run_task_with_timeout
    simp [hmatch, hd', hr]
  refine ⟨?_, rfl, rfl, rfl, ?_, ?_⟩ <;>
    simp [stock_analyze, hstrip, hexec, execute_with_error_handling]

/-- C7 witness: the instant backend at identifier 600519. -/
theorem C7_analyze_600519_invocation_witness :
    instantStockEnv.duration (_run_stock_analysis "600519" false) ≤ STOCK_ANALYSIS_TIMEOUT ∧
    instantStockEnv.result (_run_stock_analysis "600519" false) = Except.ok () ∧
    ((stock_analyze instantStockEnv "req00005" ictx0 "600519" false).calls =
       [_run_stock_analysis "600519" false] ∧
     (_run_stock_analysis "600519" false).stock_codes = ["600519"] ∧
     (_run_stock_analysis "600519" false).args.market_review = false ∧
     (_run_stock_analysis "600519" false).args.no_market_review = true ∧
     (stock_analyze instantStockEnv "req00005" ictx0 "600519" false).sent =
       [analysisStartMessage "600519", analysisDoneMessage "600519"] ∧
     (stock_analyze instantStockEnv "req00005" ictx0 "600519" false).dispatcherReturned =
       some ()) :=
  ⟨by decide, rfl,
   C7_analyze_600519_invocation instantStockEnv () "req00005" ictx0 (by decide) rfl⟩

/-- C1: the claim fails on the code — when the deadline elapses inside the
executor (backend running 601s against the 600s analysis timeout), the
executor's `except asyncio.TimeoutError` clause re-raises a plain
`Exception`, so at the dispatcher boundary the `asyncio.TimeoutError`
branch never fires: the user gets the generic unclassified message, not
the timed-out message, and the error log line is the catch-all one. -/
theorem C1_executor_deadline_lands_in_catch_all :
    (stock_analyze slowStockEnv "req00010" ictx0 "600519" false).sent =
      [analysisStartMessage "600519", genericErrorMessage] ∧
    countKind LogKind.taskTimeout
      (stock_analyze slowStockEnv "req00010" ictx0 "600519" false).logs = 1 ∧
    countKind LogKind.requestTimeout
      (stock_analyze slowStockEnv "req00010" ictx0 "600519" false).logs = 0 ∧
    countKind LogKind.requestFailure
      (stock_analyze slowStockEnv "req00010" ictx0 "600519" false).logs = 1 ∧
    timeoutUserMessage ∉ (stock_analyze slowStockEnv "req00010" ictx0 "600519" false).sent := by
  refine ⟨by decide, by decide, by decide, by decide, by decide⟩

/-- C6 counterexample: the claim that every user-invocable command runs
through the dispatcher is false for help and about — their invocations
produce no request-opened log line (hence no request id and no
classification envelope); they reply directly with the static text. -/
theorem C6_help_about_bypass_dispatcher :
    countKind LogKind.requestOpen (help_command ictx0).logs = 0 ∧
    countKind LogKind.requestOpen (about_command ictx0).logs = 0 ∧
    (help_command ictx0).sent = [helpMessage] ∧
    (about_command ictx0).sent = [aboutMessage] :=
  ⟨rfl, rfl, rfl, rfl⟩

/-- C6 amended: the analyze and market-review commands are each executed
through `execute_with_error_handling` — every invocation produces exactly
one request-opened log line — while help and about bypass the dispatcher
entirely, sending their static informational text, opening no request and
calling no backend. -/
theorem C6_dispatcher_envelope_coverage {α : Type} (env : StockBackendEnv α)
    (renv : ReviewEnv α) (request_id : String) (ictx : InteractionCtx)
    (stock_code : String) (full_report : Bool) :
    countKind LogKind.requestOpen
      (stock_analyze env request_id ictx stock_code full_report).logs = 1 ∧
    countKind LogKind.requestOpen (market_review_command renv request_id ictx).logs = 1 ∧
    countKind LogKind.requestOpen (help_command ictx).logs = 0 ∧
    countKind LogKind.requestOpen (about_command ictx).logs = 0 ∧
    (help_command ictx).sent = [helpMessage] ∧
    (about_command ictx).sent = [aboutMessage] ∧
    (help_command ictx).calls = [] ∧
    (about_command ictx).calls = [] := by
  refine ⟨?_, ?_, rfl, rfl, rfl, rfl, rfl, rfl⟩
  · simp only [stock_analyze]
    rw [dispatch_countKind_requestOpen]
    rcases hres : (_execute_stock_analysis env (pyStrip stock_code) full_report).result
      with e | v <;>
      simp [hres, countKind, countKind_append, analysisDoneEntry,
            exec_countKind_requestOpen]
  · simp only [market_review_command]
    rw [dispatch_countKind_requestOpen]
    have hout : countKind LogKind.requestOpen (_execute_market_review renv).logs = 0 := by
      unfold _execute_market_review run_sync_task
      exact run_countKind_requestOpen _ _ _
    rcases hres : (_execute_market_review renv).result with e | v
    · simp [hres, hout, countKind, countKind_append]
    · by_cases ht : renv.truthy v <;>
        simp [hres, ht, hout, countKind, countKind_append]

/-- C10: the analyze command strips leading and trailing whitespace from
the raw identifier before validating — any input whose stripped form
matches the six-digit pattern passes validation, and the backend is
invoked exactly once with the stripped identifier. -/
theorem C10_strip_then_validate {α : Type} (env : StockBackendEnv α)
    (request_id : String) (ictx : InteractionCtx) (stock_code : String) (full_report : Bool)
    (h : matchSixDigits (pyStrip stock_code) = true) :
    (stock_analyze env request_id ictx stock_code full_report).calls =
      [_run_stock_analysis (pyStrip stock_code) full_report] ∧
    (_run_stock_analysis (pyStrip stock_code) full_report).stock_codes =
      [pyStrip stock_code] ∧
    (stock_analyze env request_id ictx stock_code full_report).sent.head? =
      some (analysisStartMessage (pyStrip stock_code)) := by
  refine ⟨?_, rfl, ?_⟩
  · simp [stock_analyze, _execute_stock_analysis, h]
  · simp only [stock_analyze]
    rcases hres : (_execute_stock_analysis env (pyStrip stock_code) full_report).result
      with e | v
    · cases e <;>
        simp [hres, execute_with_error_handling, excIsValueError, excIsTimeoutError,
              excIsException]
    · simp [hres, execute_with_error_handling]

/-- C10 witness: the padded identifier `" 600519 "` strips to 600519,
passes validation and reaches the backend. -/
theorem C10_strip_then_validate_witness :
    matchSixDigits (pyStrip " 600519 ") = true ∧
    ((stock_analyze instantStockEnv "req00006" ictx0 " 600519 " false).calls =
       [_run_stock_analysis (pyStrip " 600519 ") false] ∧
     (_run_stock_analysis (pyStrip " 600519 ") false).stock_codes = [pyStrip " 600519 "] ∧
     (stock_analyze instantStockEnv "req00006" ictx0 " 600519 " false).sent.head? =
       some (analysisStartMessage (pyStrip " 600519 "))) :=
  ⟨by decide,
   C10_strip_then_validate instantStockEnv "req00006" ictx0 " 600519 " false (by decide)⟩

end DiscordBot
